import Mathlib

/-!
Verification of the two scripts of this repository against their
specification.

The repository holds two independent straight-line Python scripts:

* `transformer.py` builds a text-generation pipeline for the model
  distilgpt2, calls it once on the prompt "Hello!" with max_length 20,
  and prints the returned value.
* `twilio_client.py` reads TWILIO_SID and TWILIO_AUTH_TOKEN from the
  process environment with os.getenv, constructs a twilio.rest.Client
  from the two values, and prints the client.  It makes load_dotenv
  available but never calls it.

The external collaborators (the transformers pipeline and the Twilio
client constructor) are opaque: they are modelled as parameters, namely
fallible functions supplied to each script.  Each script is embedded as a
Lean function returning the ordered list of observable effects it
performs (environment reads, file accesses, external calls, writes to
standard output) together with its outcome: `Except.ok ()` for a run that
reaches the end, or the propagated error of the first failing external
call.
-/

/-- A Python exception is modelled by its message string. -/
abbrev PyError := String

/-- The observable effects a run of either script can record.  The
vocabulary also contains effects the scripts could in principle perform
but never do (file access, outbound network traffic), so that their
absence is expressible. -/
inductive Effect where
  | envRead (name : String) (value : Option String)
  | fileRead (path : String)
  | fileWrite (path : String)
  | pipelineLoad (task : String) (model : String)
  | genCall (prompt : String) (maxLength : Nat)
  | clientNew (accountSid : Option String) (authToken : Option String)
  | networkSend (description : String)
  | print (output : String)
  deriving DecidableEq

/-- Is this effect a read of an environment variable? -/
def Effect.isEnvRead : Effect → Bool
  | .envRead _ _ => true
  | _ => false

/-- Is this effect a file read or a file write? -/
def Effect.isFileOp : Effect → Bool
  | .fileRead _ => true
  | .fileWrite _ => true
  | _ => false

/-- Is this effect an invocation of the text-generation capability? -/
def Effect.isGenCall : Effect → Bool
  | .genCall _ _ => true
  | _ => false

/-- Is this effect an outbound network call? -/
def Effect.isNetworkSend : Effect → Bool
  | .networkSend _ => true
  | _ => false

/-- The callable returned by `pipeline`: applied to a prompt and a
`max_length` bound, it either fails or returns the list of generated
completions (each completion reduced to its generated text). -/
structure Chatbot where
  run : String → Nat → Except PyError (List String)

/-- The opaque `transformers` collaborator: `pipeline` builds a chatbot
from a task name and a model name (or fails, e.g. when the model cannot
be loaded), and `reprOutput` is the textual rendering that `print`
applies to the value the chatbot returned. -/
structure TransformersLib where
  pipeline : String → String → Except PyError Chatbot
  reprOutput : List String → String

/-- Shallow embedding of `transformer.py`: load the pipeline for task
`"text-generation"` with model `"distilgpt2"`, call it once on the
prompt `"Hello!"` with `max_length` 20, and print the returned value.
Any failure of an external call stops the run and is returned as the
outcome. -/
def transformer_run (lib : TransformersLib) : List Effect × Except PyError Unit :=
  match lib.pipeline "text-generation" "distilgpt2" with
  | .error e => ([Effect.pipelineLoad "text-generation" "distilgpt2"], Except.error e)
  | .ok chatbot =>
    match chatbot.run "Hello!" 20 with
    | .error e =>
        ([Effect.pipelineLoad "text-generation" "distilgpt2",
          Effect.genCall "Hello!" 20], Except.error e)
    | .ok result =>
        ([Effect.pipelineLoad "text-generation" "distilgpt2",
          Effect.genCall "Hello!" 20,
          Effect.print (lib.reprOutput result)], Except.ok ())

/-- The ambient state visible to `twilio_client.py`: the process
environment, and the contents of a `.env` file that `load_dotenv` would
read if it were ever called. -/
structure World where
  env : String → Option String
  dotenvFile : String → Option String

/-- Shallow embedding of `dotenv.load_dotenv`: read the `.env` file and
install its entries into the environment without overriding variables
that are already set.  The script imports this function but never calls
it. -/
def load_dotenv (w : World) : List Effect × World :=
  ([Effect.fileRead ".env"],
   { w with
       env := fun k =>
         match w.env k with
         | some v => some v
         | none => w.dotenvFile k })

/-- The opaque `twilio.rest` collaborator over an abstract handle type
`C`: `mkClient` is the `Client` constructor applied to the two credential
values (each possibly absent), and `showClient` is the textual rendering
that `print` applies to the handle. -/
structure TwilioLib (C : Type) where
  mkClient : Option String → Option String → Except PyError C
  showClient : C → String

/-- Shallow embedding of `twilio_client.py`: read `TWILIO_SID` and
`TWILIO_AUTH_TOKEN` from the process environment with `os.getenv` (which
yields `none` for an absent variable, never an error), pass the two
values unchanged to the `Client` constructor, and print the handle.  A
failure of the constructor stops the run and is returned as the
outcome. -/
def twilio_run {C : Type} (lib : TwilioLib C) (w : World) :
    List Effect × Except PyError Unit :=
  let account_sid := w.env "TWILIO_SID"
  let auth_token := w.env "TWILIO_AUTH_TOKEN"
  match lib.mkClient account_sid auth_token with
  | .error e =>
      ([Effect.envRead "TWILIO_SID" account_sid,
        Effect.envRead "TWILIO_AUTH_TOKEN" auth_token,
        Effect.clientNew account_sid auth_token], Except.error e)
  | .ok client =>
      ([Effect.envRead "TWILIO_SID" account_sid,
        Effect.envRead "TWILIO_AUTH_TOKEN" auth_token,
        Effect.clientNew account_sid auth_token,
        Effect.print (lib.showClient client)], Except.ok ())

/-- A concrete chatbot that always succeeds, used to instantiate the
universally quantified statements below at a specific collaborator. -/
def helloChatbot : Chatbot :=
  { run := fun _ _ => Except.ok ["Hello! I am a model."] }

/-- A concrete transformers collaborator whose calls all succeed. -/
def okTransformersLib : TransformersLib :=
  { pipeline := fun _ _ => Except.ok helloChatbot,
    reprOutput := fun xs => String.intercalate ", " xs }

/-- A concrete transformers collaborator whose pipeline load fails. -/
def failTransformersLib : TransformersLib :=
  { pipeline := fun _ _ => Except.error "model unavailable",
    reprOutput := fun xs => String.intercalate ", " xs }

/-- A concrete Twilio collaborator whose constructor always succeeds. -/
def okTwilioLib : TwilioLib Unit :=
  { mkClient := fun _ _ => Except.ok (),
    showClient := fun _ => "<twilio.rest.Client object>" }

/-- A concrete Twilio collaborator whose constructor always fails. -/
def failTwilioLib : TwilioLib Unit :=
  { mkClient := fun _ _ => Except.error "credentials required",
    showClient := fun _ => "<twilio.rest.Client object>" }

/-- A world with an empty environment and an empty `.env` file. -/
def emptyWorld : World :=
  { env := fun _ => none, dotenvFile := fun _ => none }

/-- A world in which both Twilio credential variables are set. -/
def setWorld : World :=
  { env := fun k =>
      if k = "TWILIO_SID" then some "AC123"
      else if k = "TWILIO_AUTH_TOKEN" then some "token123" else none,
    dotenvFile := fun _ => none }

/-- A world agreeing with `setWorld` on the two credential variables but
differing on every other environment variable and on the `.env` file. -/
def noisyWorld : World :=
  { env := fun k =>
      if k = "TWILIO_SID" then some "AC123"
      else if k = "TWILIO_AUTH_TOKEN" then some "token123" else some "noise",
    dotenvFile := fun _ => some "noise" }

/-- C1: a successful run of the text-generation script records exactly
one invocation of the generation capability, that invocation uses the
prompt "Hello!" and the maximum output length 20, and the value the call
returned is written (via its textual rendering) to standard output. -/
theorem C1_single_generation_call (lib : TransformersLib) (cb : Chatbot)
    (res : List String)
    (hp : lib.pipeline "text-generation" "distilgpt2" = Except.ok cb)
    (hr : cb.run "Hello!" 20 = Except.ok res) :
    (transformer_run lib).1.countP Effect.isGenCall = 1
    ∧ Effect.genCall "Hello!" 20 ∈ (transformer_run lib).1
    ∧ Effect.print (lib.reprOutput res) ∈ (transformer_run lib).1 := by
  simp [transformer_run, hp, hr, List.countP_cons, Effect.isGenCall]

/-- Witness for C1 at a concrete successful collaborator. -/
theorem C1_witness :
    okTransformersLib.pipeline "text-generation" "distilgpt2" = Except.ok helloChatbot
    ∧ helloChatbot.run "Hello!" 20 = Except.ok ["Hello! I am a model."]
    ∧ ((transformer_run okTransformersLib).1.countP Effect.isGenCall = 1
      ∧ Effect.genCall "Hello!" 20 ∈ (transformer_run okTransformersLib).1
      ∧ Effect.print (okTransformersLib.reprOutput ["Hello! I am a model."])
          ∈ (transformer_run okTransformersLib).1) :=
  ⟨rfl, rfl,
   C1_single_generation_call okTransformersLib helloChatbot
     ["Hello! I am a model."] rfl rfl⟩

/-- C2: in every run of the messaging-client script, the environment
reads are exactly the two variables TWILIO_SID and TWILIO_AUTH_TOKEN (in
that order, with whatever values, absent ones included, the environment
holds — no defaults and no validation), those two values are passed
unchanged to the client constructor, and when construction succeeds the
rendering of the resulting handle is printed. -/
theorem C2_reads_two_env_vars (C : Type) (lib : TwilioLib C) (w : World) :
    (twilio_run lib w).1.filter Effect.isEnvRead =
      [Effect.envRead "TWILIO_SID" (w.env "TWILIO_SID"),
       Effect.envRead "TWILIO_AUTH_TOKEN" (w.env "TWILIO_AUTH_TOKEN")]
    ∧ Effect.clientNew (w.env "TWILIO_SID") (w.env "TWILIO_AUTH_TOKEN")
        ∈ (twilio_run lib w).1
    ∧ ∀ c, lib.mkClient (w.env "TWILIO_SID") (w.env "TWILIO_AUTH_TOKEN") = Except.ok c →
        Effect.print (lib.showClient c) ∈ (twilio_run lib w).1 := by
  cases hm : lib.mkClient (w.env "TWILIO_SID") (w.env "TWILIO_AUTH_TOKEN") with
  | error e => simp [twilio_run, hm, Effect.isEnvRead]
  | ok c => simp [twilio_run, hm, Effect.isEnvRead]

/-- Witness for C2 at a concrete collaborator and environment. -/
theorem C2_witness :
    (twilio_run okTwilioLib setWorld).1.filter Effect.isEnvRead =
      [Effect.envRead "TWILIO_SID" (setWorld.env "TWILIO_SID"),
       Effect.envRead "TWILIO_AUTH_TOKEN" (setWorld.env "TWILIO_AUTH_TOKEN")]
    ∧ Effect.clientNew (setWorld.env "TWILIO_SID") (setWorld.env "TWILIO_AUTH_TOKEN")
        ∈ (twilio_run okTwilioLib setWorld).1
    ∧ Effect.print (okTwilioLib.showClient ()) ∈ (twilio_run okTwilioLib setWorld).1 :=
  ⟨(C2_reads_two_env_vars Unit okTwilioLib setWorld).1,
   (C2_reads_two_env_vars Unit okTwilioLib setWorld).2.1,
   (C2_reads_two_env_vars Unit okTwilioLib setWorld).2.2 () rfl⟩

/-- C4: when either credential variable is absent from the environment,
the script still performs the client-construction call, passing the
absent value through unchanged as `none`, and the outcome of the run is
exactly the outcome of that external call — no branch of this code
checks the values or turns their absence into a failure of its own. -/
theorem C4_absent_credential_passed_through (C : Type) (lib : TwilioLib C)
    (w : World)
    (h : w.env "TWILIO_SID" = none ∨ w.env "TWILIO_AUTH_TOKEN" = none) :
    Effect.clientNew (w.env "TWILIO_SID") (w.env "TWILIO_AUTH_TOKEN")
        ∈ (twilio_run lib w).1
    ∧ (twilio_run lib w).2 =
        (lib.mkClient (w.env "TWILIO_SID") (w.env "TWILIO_AUTH_TOKEN")).map
          (fun _ => ()) := by
  cases hm : lib.mkClient (w.env "TWILIO_SID") (w.env "TWILIO_AUTH_TOKEN") with
  | error e => simp [twilio_run, hm, Except.map]
  | ok c => simp [twilio_run, hm, Except.map]

/-- Witness for C4 at the empty environment. -/
theorem C4_witness :
    emptyWorld.env "TWILIO_SID" = none
    ∧ (Effect.clientNew (emptyWorld.env "TWILIO_SID") (emptyWorld.env "TWILIO_AUTH_TOKEN")
        ∈ (twilio_run okTwilioLib emptyWorld).1
      ∧ (twilio_run okTwilioLib emptyWorld).2 =
          (okTwilioLib.mkClient (emptyWorld.env "TWILIO_SID")
            (emptyWorld.env "TWILIO_AUTH_TOKEN")).map (fun _ => ())) :=
  ⟨rfl,
   C4_absent_credential_passed_through Unit okTwilioLib emptyWorld (Or.inl rfl)⟩

/-- C5: neither script handles errors: a failure of any external call
(the pipeline load, the generation call, or the client construction) is
returned unchanged as the outcome of the run — no branch catches or
translates it. -/
theorem C5_errors_propagate_unhandled (lib : TransformersLib) (C : Type)
    (tlib : TwilioLib C) (w : World) (e : PyError) :
    (lib.pipeline "text-generation" "distilgpt2" = Except.error e →
        (transformer_run lib).2 = Except.error e)
    ∧ (∀ cb, lib.pipeline "text-generation" "distilgpt2" = Except.ok cb →
        cb.run "Hello!" 20 = Except.error e →
        (transformer_run lib).2 = Except.error e)
    ∧ (tlib.mkClient (w.env "TWILIO_SID") (w.env "TWILIO_AUTH_TOKEN") = Except.error e →
        (twilio_run tlib w).2 = Except.error e) := by
  refine ⟨fun hp => ?_, fun cb hp hr => ?_, fun hm => ?_⟩
  · simp [transformer_run, hp]
  · simp [transformer_run, hp, hr]
  · simp [twilio_run, hm]

/-- Witness for C5 at concrete failing collaborators. -/
theorem C5_witness :
    failTransformersLib.pipeline "text-generation" "distilgpt2" =
        Except.error "model unavailable"
    ∧ (transformer_run failTransformersLib).2 = Except.error "model unavailable"
    ∧ (twilio_run failTwilioLib emptyWorld).2 = Except.error "credentials required" :=
  ⟨rfl,
   (C5_errors_propagate_unhandled failTransformersLib Unit failTwilioLib emptyWorld
     "model unavailable").1 rfl,
   (C5_errors_propagate_unhandled failTransformersLib Unit failTwilioLib emptyWorld
     "credentials required").2.2 rfl⟩

/-- C6: no run of either script performs any file access of its own: no
file read or file write ever appears in either trace.  In particular the
messaging script never loads a .env file: `load_dotenv` (which would
record a read of ".env") is available but never invoked, as the third
conjunct contrasts. -/
theorem C6_no_file_access (lib : TransformersLib) (C : Type)
    (tlib : TwilioLib C) (w : World) :
    (transformer_run lib).1.countP Effect.isFileOp = 0
    ∧ (twilio_run tlib w).1.countP Effect.isFileOp = 0
    ∧ (load_dotenv w).1.countP Effect.isFileOp = 1 := by
  refine ⟨?_, ?_, rfl⟩
  · cases hp : lib.pipeline "text-generation" "distilgpt2" with
    | error e => simp [transformer_run, hp, Effect.isFileOp]
    | ok cb =>
      cases hr : cb.run "Hello!" 20 with
      | error e => simp [transformer_run, hp, hr, Effect.isFileOp]
      | ok res => simp [transformer_run, hp, hr, Effect.isFileOp]
  · cases hm : tlib.mkClient (w.env "TWILIO_SID") (w.env "TWILIO_AUTH_TOKEN") with
    | error e => simp [twilio_run, hm, Effect.isFileOp]
    | ok c => simp [twilio_run, hm, Effect.isFileOp]

/-- C8: the client handle is never used for a network call: no trace of
the messaging-client script contains an outbound network effect, and on
a successful run the complete trace is the two environment reads, the
construction of the handle, and the printing of its rendering — nothing
else happens to the handle. -/
theorem C8_construct_then_print_only (C : Type) (lib : TwilioLib C) (w : World) :
    (twilio_run lib w).1.countP Effect.isNetworkSend = 0
    ∧ ∀ c, lib.mkClient (w.env "TWILIO_SID") (w.env "TWILIO_AUTH_TOKEN") = Except.ok c →
        (twilio_run lib w).1 =
          [Effect.envRead "TWILIO_SID" (w.env "TWILIO_SID"),
           Effect.envRead "TWILIO_AUTH_TOKEN" (w.env "TWILIO_AUTH_TOKEN"),
           Effect.clientNew (w.env "TWILIO_SID") (w.env "TWILIO_AUTH_TOKEN"),
           Effect.print (lib.showClient c)] := by
  cases hm : lib.mkClient (w.env "TWILIO_SID") (w.env "TWILIO_AUTH_TOKEN") with
  | error e => simp [twilio_run, hm, Effect.isNetworkSend]
  | ok c => simp [twilio_run, hm, Effect.isNetworkSend]

/-- Witness for C8 at a concrete collaborator and environment. -/
theorem C8_witness :
    (twilio_run okTwilioLib setWorld).1.countP Effect.isNetworkSend = 0
    ∧ (twilio_run okTwilioLib setWorld).1 =
        [Effect.envRead "TWILIO_SID" (setWorld.env "TWILIO_SID"),
         Effect.envRead "TWILIO_AUTH_TOKEN" (setWorld.env "TWILIO_AUTH_TOKEN"),
         Effect.clientNew (setWorld.env "TWILIO_SID") (setWorld.env "TWILIO_AUTH_TOKEN"),
         Effect.print (okTwilioLib.showClient ())] :=
  ⟨(C8_construct_then_print_only Unit okTwilioLib setWorld).1,
   (C8_construct_then_print_only Unit okTwilioLib setWorld).2 () rfl⟩

/-- C10: the behaviour of the messaging-client script — its whole trace
and outcome — depends only on the values of TWILIO_SID and
TWILIO_AUTH_TOKEN in the process environment: two worlds agreeing on
those two variables yield identical runs, whatever their .env files or
other environment variables hold (load_dotenv is imported but never
called, and no other input is read). -/
theorem C10_depends_only_on_two_vars (C : Type) (lib : TwilioLib C)
    (w1 w2 : World)
    (h1 : w1.env "TWILIO_SID" = w2.env "TWILIO_SID")
    (h2 : w1.env "TWILIO_AUTH_TOKEN" = w2.env "TWILIO_AUTH_TOKEN") :
    twilio_run lib w1 = twilio_run lib w2 := by
  simp only [twilio_run, h1, h2]

/-- Witness for C10: two worlds that agree on the two credential
variables but differ on the .env file and on every other environment
variable produce identical runs. -/
theorem C10_witness :
    setWorld.env "TWILIO_SID" = noisyWorld.env "TWILIO_SID"
    ∧ setWorld.env "TWILIO_AUTH_TOKEN" = noisyWorld.env "TWILIO_AUTH_TOKEN"
    ∧ setWorld.env "PATH" ≠ noisyWorld.env "PATH"
    ∧ setWorld.dotenvFile "TWILIO_SID" ≠ noisyWorld.dotenvFile "TWILIO_SID"
    ∧ twilio_run okTwilioLib setWorld = twilio_run okTwilioLib noisyWorld :=
  ⟨rfl, rfl, by decide, by decide,
   C10_depends_only_on_two_vars Unit okTwilioLib setWorld noisyWorld rfl rfl⟩
